import Mathlib

/-
Verification of mgear rigbits rbf_node.py against its specification.

The module under verification is a thin adapter over a host 3D application
(Maya) scene graph.  We shallowly embed the host state as a `Scene`: a list
of named nodes, each with a node type, an optional parent and a list of
dynamic attributes.  Host commands (`maya.cmds`, called `mc` in the source)
are modelled in the namespace `mc` below, with the documented Maya error
behaviour (ValueError for a missing object or plug, RuntimeError for a
duplicate attribute or a non-deletable attribute).  Python exceptions are
values of `PyError`; a Python function that can raise is embedded as a
function into `Except PyError`.
-/

set_option autoImplicit false

deriving instance DecidableEq for Except

/-- Python exception kinds raised by the host API and by the module itself. -/
inductive PyError where
  | RuntimeError (msg : String)
  | ValueError (msg : String)
  | IndexError (msg : String)
  | KeyError (msg : String)
  | NotImplementedError
deriving DecidableEq

/-- Value stored in a scene attribute: the module uses string attributes
(dt="string") and one float attribute (at="float").  Numeric range metadata
(min/max) is not modelled; no claim depends on it. -/
inductive AttrValue where
  | str (s : String)
  | flt (v : Int)
deriving DecidableEq

/-- One attribute on a scene node.  `dynamic` is true for user-added
attributes (the only ones `deleteAttr` may remove). -/
structure MayaAttr where
  attrName : String
  value : AttrValue
  dynamic : Bool
deriving DecidableEq

/-- One node of the host scene graph. -/
structure MayaNode where
  name : String
  nodeType : String
  parent : Option String
  attrs : List MayaAttr
deriving DecidableEq

/-- The host scene: a list of nodes.  Maya enforces name uniqueness; where a
theorem needs it, this is taken as an explicit Nodup hypothesis. -/
structure Scene where
  nodes : List MayaNode
deriving DecidableEq

/-- First node with the given name, as the host name lookup would find it. -/
def Scene.findNode (s : Scene) (n : String) : Option MayaNode :=
  s.nodes.find? fun nd => decide (nd.name = n)

/-- First attribute with the given name on a node. -/
def MayaNode.findAttr (nd : MayaNode) (an : String) : Option MayaAttr :=
  nd.attrs.find? fun a => decide (a.attrName = an)

/-- Whether the node carries an attribute of the given name. -/
def MayaNode.hasAttr (nd : MayaNode) (an : String) : Bool :=
  (nd.findAttr an).isSome

/-- Apply a node transformation to every node of the given name. -/
def Scene.updateNode (s : Scene) (n : String) (f : MayaNode → MayaNode) : Scene :=
  ⟨s.nodes.map fun nd => if nd.name = n then f nd else nd⟩

/-- Overwrite the value of the named attribute, where present. -/
def MayaNode.setAttrValue (nd : MayaNode) (an : String) (v : AttrValue) : MayaNode :=
  { nd with attrs := nd.attrs.map fun a => if a.attrName = an then { a with value := v } else a }

/-- Append a new attribute to a node. -/
def MayaNode.addAttrRaw (nd : MayaNode) (a : MayaAttr) : MayaNode :=
  { nd with attrs := nd.attrs ++ [a] }

/-- Remove every attribute of the given name from a node. -/
def MayaNode.removeAttr (nd : MayaNode) (an : String) : MayaNode :=
  { nd with attrs := nd.attrs.filter fun a => !(decide (a.attrName = an)) }

/-- Whether the first node found under this name carries the attribute. -/
def hasAttrOn (s : Scene) (node an : String) : Bool :=
  (Scene.findNode s node).any fun nd => nd.hasAttr an

namespace mc

/-- Embeds `mc.objExists`. -/
def objExists (s : Scene) (n : String) : Bool :=
  (Scene.findNode s n).isSome

/-- Embeds `mc.nodeType`: ValueError when no object matches the name. -/
def nodeType (s : Scene) (n : String) : Except PyError String :=
  match Scene.findNode s n with
  | none => Except.error (PyError.ValueError ("No object matches name: " ++ n))
  | some nd => Except.ok nd.nodeType

/-- Embeds `mc.addAttr(node, ln=an, ...)` with initial value `v`:
ValueError when the node is missing, RuntimeError when the attribute
already exists, otherwise the attribute is appended as a dynamic attribute. -/
def addAttr (s : Scene) (node an : String) (v : AttrValue) : Except PyError Scene :=
  match Scene.findNode s node with
  | none => Except.error (PyError.ValueError ("No object matches name: " ++ node))
  | some nd =>
    if nd.hasAttr an then
      Except.error (PyError.RuntimeError ("attribute already exists: " ++ node ++ "." ++ an))
    else
      Except.ok (Scene.updateNode s node fun m => m.addAttrRaw ⟨an, v, true⟩)

/-- Embeds `mc.deleteAttr("node.an")`: ValueError when the plug does not
exist, RuntimeError when the attribute is not dynamic (static attributes
cannot be deleted), otherwise the attribute is removed. -/
def deleteAttr (s : Scene) (node an : String) : Except PyError Scene :=
  match Scene.findNode s node with
  | none => Except.error (PyError.ValueError ("No object matches name: " ++ node ++ "." ++ an))
  | some nd =>
    match nd.findAttr an with
    | none => Except.error (PyError.ValueError ("No object matches name: " ++ node ++ "." ++ an))
    | some a =>
      if a.dynamic then
        Except.ok (Scene.updateNode s node fun m => m.removeAttr an)
      else
        Except.error (PyError.RuntimeError ("static attributes cannot be deleted: " ++ an))

/-- Embeds `mc.getAttr("node.an")`: ValueError when the plug is missing. -/
def getAttr (s : Scene) (node an : String) : Except PyError AttrValue :=
  match Scene.findNode s node with
  | none => Except.error (PyError.ValueError ("No object matches name: " ++ node ++ "." ++ an))
  | some nd =>
    match nd.findAttr an with
    | none => Except.error (PyError.ValueError ("No object matches name: " ++ node ++ "." ++ an))
    | some a => Except.ok a.value

/-- Embeds `mc.setAttr("node.an", v, type="string")`: ValueError when the
plug is missing, RuntimeError when the attribute is not string-typed. -/
def setAttr (s : Scene) (node an : String) (v : String) : Except PyError Scene :=
  match Scene.findNode s node with
  | none => Except.error (PyError.ValueError ("No object matches name: " ++ node ++ "." ++ an))
  | some nd =>
    match nd.findAttr an with
    | none => Except.error (PyError.ValueError ("No object matches name: " ++ node ++ "." ++ an))
    | some a =>
      match a.value with
      | AttrValue.str _ =>
          Except.ok (Scene.updateNode s node fun m => m.setAttrValue an (AttrValue.str v))
      | AttrValue.flt _ =>
          Except.error (PyError.RuntimeError ("invalid data type for attribute: " ++ an))

/-- Embeds `mc.attributeQuery(an, n=node, ex=True)`: RuntimeError when the
node does not exist, otherwise whether the attribute exists on it. -/
def attributeQuery (s : Scene) (an node : String) : Except PyError Bool :=
  match Scene.findNode s node with
  | none => Except.error (PyError.RuntimeError ("node does not exist: " ++ node))
  | some nd => Except.ok (nd.hasAttr an)

/-- Embeds `mc.ls(type=types)`: names of the scene nodes whose type is in
the list, in scene order. -/
def ls (s : Scene) (types : List String) : List String :=
  (s.nodes.filter fun nd => decide (nd.nodeType ∈ types)).map MayaNode.name

/-- Embeds `mc.listRelatives(node, p=True) or None` from the source: the
parent as a singleton list, or `none` for no parent; ValueError when the
node does not exist. -/
def listRelativesParent (s : Scene) (node : String) : Except PyError (Option (List String)) :=
  match Scene.findNode s node with
  | none => Except.error (PyError.ValueError ("No object matches name: " ++ node))
  | some nd => Except.ok (nd.parent.map fun p => [p])

/-- Embeds `mc.group(name=name, p=parentName, em=True)`: creates an empty
transform under the parent and returns its name.  Maya would uniquify a
clashing name; that renaming is not modelled (no claim reaches it). -/
def group (s : Scene) (name parentName : String) : Except PyError (Scene × String) :=
  match Scene.findNode s parentName with
  | none => Except.error (PyError.ValueError ("No object matches name: " ++ parentName))
  | some _ => Except.ok (⟨s.nodes ++ [⟨name, "transform", some parentName, []⟩]⟩, name)

/-- Embeds `mc.parent(child, newParent)`: reparent the child. -/
def parent (s : Scene) (child newParent : String) : Except PyError Scene :=
  match Scene.findNode s child, Scene.findNode s newParent with
  | some _, some _ =>
      Except.ok (Scene.updateNode s child fun nd => { nd with parent := some newParent })
  | _, _ => Except.error (PyError.ValueError "No object matches name")

end mc

/-- Embeds Python str.format with automatic positional fields: each pair of
braces consumes the next argument; a field with no argument left raises
IndexError, as CPython does. -/
def pyFormatCore : List Char → List String → Except PyError (List Char)
  | [], _ => Except.ok []
  | '\x7b' :: '\x7d' :: rest, args =>
    match args with
    | [] => Except.error (PyError.IndexError "Replacement index out of range for positional args tuple")
    | a :: argsRest =>
      match pyFormatCore rest argsRest with
      | Except.error e => Except.error e
      | Except.ok r => Except.ok (a.data ++ r)
  | c :: rest, args =>
    match pyFormatCore rest args with
    | Except.error e => Except.error e
    | Except.ok r => Except.ok (c :: r)

/-- String-level wrapper of `pyFormatCore`. -/
def pyFormat (template : String) (args : List String) : Except PyError String :=
  (pyFormatCore template.data args).map fun cs => ⟨cs⟩

/-- Embeds Python `str.endswith`, as a suffix test on the character
sequence. -/
def pyEndsWith (s suffix : String) : Bool :=
  suffix.data.isSuffixOf s.data

/-- Embeds Python `str.replace` on character sequences: every
non-overlapping occurrence of the pattern, scanned left to right, is
replaced.  An empty pattern is returned unchanged (Python would interleave
the replacement; no caller passes an empty pattern). -/
def replaceAllCore (pat rep : List Char) : List Char → List Char
  | [] => []
  | c :: rest =>
    if h : pat ≠ [] ∧ pat.isPrefixOf (c :: rest) then
      rep ++ replaceAllCore pat rep ((c :: rest).drop pat.length)
    else
      c :: replaceAllCore pat rep rest
termination_by l => l.length
decreasing_by
  · simp only [List.length_drop, List.length_cons]
    have hpat : 1 ≤ pat.length := by
      cases hp : pat with
      | nil => exact absurd hp h.1
      | cons a as => simp
    omega
  · simp

/-- String-level wrapper of `replaceAllCore`. -/
def pyReplace (s pat rep : String) : String :=
  ⟨replaceAllCore pat.data rep.data s.data⟩

/-
Constants of rbf_node.py.
-/

/-- Suffix applied to driven groups. -/
def DRIVEN_SUFFIX : String := "_driven"

/-- Name suffix of controls. -/
def CTL_SUFFIX : String := "_ctl"

/-- Suffix of transform nodes for rbf nodes. -/
def TRANSFORM_SUFFIX : String := "_trfm"

/-- Attribute storing the setup name for a group of rbf nodes. -/
def RBF_SETUP_ATTR : String := "rbf_setup_name"

/-- Currently supported rbf node types (a one-element tuple in the source). -/
def SUPPORTED_RBF_NODES : List String := ["weightDriver"]

/-- Generic suffix used when a support module provides none. -/
def GENERIC_SUFFIX : String := "_RBF"

/-- Attribute storing the driver control name. -/
def DRIVER_CTL_ATTR_NAME : String := "driverControlName"

/-- Attribute applied to the driven control. -/
def RBF_SCALE_ATTR : String := "RBF_Multiplier"

/-
Free functions of rbf_node.py, translated statement by statement.  Stateful
functions take the scene and return it through `Except`; `addDrivenGroup`
threads the scene explicitly so that the scene at the moment an exception
is raised is visible in the result.
-/

/-- Embeds `addDrivenGroup(node)`.  The non-control branch builds the group
name with a two-placeholder format string applied to one argument, exactly
as the source does. -/
def addDrivenGroup (s : Scene) (node : String) : Except PyError String × Scene :=
  match mc.listRelativesParent s node with
  | Except.error e => (Except.error e, s)
  | Except.ok parentOfTarget =>
    match parentOfTarget with
    | none => (Except.ok node, s)
    | some plist =>
      match (if pyEndsWith node CTL_SUFFIX then
               Except.ok (pyReplace node CTL_SUFFIX DRIVEN_SUFFIX)
             else
               pyFormat "\x7b\x7d\x7b\x7d" [DRIVEN_SUFFIX]) with
      | Except.error e => (Except.error e, s)
      | Except.ok drivenName =>
        match plist with
        | [] => (Except.error (PyError.IndexError "list index out of range"), s)
        | p0 :: _ =>
          match mc.group s drivenName p0 with
          | Except.error e => (Except.error e, s)
          | Except.ok (s1, drivenName1) =>
            match mc.parent s1 node drivenName1 with
            | Except.error e => (Except.error e, s1)
            | Except.ok s2 => (Except.ok drivenName1, s2)

/-- Embeds `createRBFToggleAttr(node)`: addAttr of the float toggle
attribute, with RuntimeError suppressed. -/
def createRBFToggleAttr (s : Scene) (node : String) : Except PyError Scene :=
  match mc.addAttr s node RBF_SCALE_ATTR (AttrValue.flt 1) with
  | Except.error (PyError.RuntimeError _) => Except.ok s
  | r => r

/-- Embeds `deleteRBFToggleAttr(node)`: deleteAttr of the toggle attribute,
with ValueError suppressed. -/
def deleteRBFToggleAttr (s : Scene) (node : String) : Except PyError Scene :=
  match mc.deleteAttr s node RBF_SCALE_ATTR with
  | Except.error (PyError.ValueError _) => Except.ok s
  | r => r

/-- Embeds `createDriverControlAttr(node)`: addAttr of the string attribute
`driverControlName`, with RuntimeError suppressed.  A freshly created
string attribute is modelled with value `.str ""`. -/
def createDriverControlAttr (s : Scene) (node : String) : Except PyError Scene :=
  match mc.addAttr s node DRIVER_CTL_ATTR_NAME (AttrValue.str "") with
  | Except.error (PyError.RuntimeError _) => Except.ok s
  | r => r

/-- Embeds `getDriverControlAttr(node)`: getAttr of `driverControlName`,
returning the empty string when the plug is missing (ValueError). -/
def getDriverControlAttr (s : Scene) (node : String) : Except PyError AttrValue :=
  match mc.getAttr s node DRIVER_CTL_ATTR_NAME with
  | Except.error (PyError.ValueError _) => Except.ok (AttrValue.str "")
  | Except.error e => Except.error e
  | Except.ok v => Except.ok v

/-- Embeds `setDriverControlAttr(node, controlName)`: create the string
attribute when missing, then set it. -/
def setDriverControlAttr (s : Scene) (node controlName : String) : Except PyError Scene := do
  let b ← mc.attributeQuery s DRIVER_CTL_ATTR_NAME node
  let s1 ← if b then Except.ok s else createDriverControlAttr s node
  mc.setAttr s1 node DRIVER_CTL_ATTR_NAME controlName

/-- Embeds `getSceneRBFNodes()`: `mc.ls(type=SUPPORTED_RBF_NODES) or []`. -/
def getSceneRBFNodes (s : Scene) : List String :=
  match mc.ls s SUPPORTED_RBF_NODES with
  | [] => []
  | r => r

/-- Embeds the list comprehension of `getSceneSetupNodes`: keep the nodes
carrying the setup attribute, querying left to right as Python does. -/
def hasSetupAttrFilter (s : Scene) : List String → Except PyError (List String)
  | [] => Except.ok []
  | rbf :: rest =>
    match mc.attributeQuery s RBF_SETUP_ATTR rbf with
    | Except.error e => Except.error e
    | Except.ok b =>
      match hasSetupAttrFilter s rest with
      | Except.error e => Except.error e
      | Except.ok l => if b then Except.ok (rbf :: l) else Except.ok l

/-- Embeds `getSceneSetupNodes()`: the supported-type nodes, passed through
Python `set` (modelled as `List.dedup`), filtered on the setup attribute. -/
def getSceneSetupNodes (s : Scene) : Except PyError (List String) :=
  hasSetupAttrFilter s (mc.ls s SUPPORTED_RBF_NODES).dedup

/-- Append a value to the list stored under a key of a Python dict,
creating the entry at the end when the key is absent; this covers both the
`setupName in setups_dict` and the new-key branch of the source. -/
def dictAppend : List (AttrValue × List String) → AttrValue → String → List (AttrValue × List String)
  | [], k, v => [(k, [v])]
  | e :: rest, k, v =>
    if e.1 = k then (e.1, e.2 ++ [v]) :: rest else e :: dictAppend rest k v

/-- Embeds `dict.pop(k)`: KeyError when absent, otherwise the entry is
removed. -/
def dictPop (d : List (AttrValue × List String)) (k : AttrValue) : Except PyError (List (AttrValue × List String)) :=
  if d.any fun e => decide (e.1 = k) then
    Except.ok (d.filter fun e => !(decide (e.1 = k)))
  else
    Except.error (PyError.KeyError "empty")

/-- Embeds the loop of `getRbfSceneSetupsInfo`: read each setup name and
file the node under it, the empty name going to the key "empty". -/
def buildSetupsDict (s : Scene) : List String → List (AttrValue × List String) → Except PyError (List (AttrValue × List String))
  | [], d => Except.ok d
  | rbfNode :: rest, d =>
    match mc.getAttr s rbfNode RBF_SETUP_ATTR with
    | Except.error e => Except.error e
    | Except.ok setupName =>
      buildSetupsDict s rest
        (if setupName = AttrValue.str "" then dictAppend d (AttrValue.str "empty") rbfNode
         else dictAppend d setupName rbfNode)

/-- Embeds `getRbfSceneSetupsInfo(includeEmpty)`. -/
def getRbfSceneSetupsInfo (s : Scene) (includeEmpty : Bool) : Except PyError (List (AttrValue × List String)) := do
  let setupNodes ← getSceneSetupNodes s
  let d ← buildSetupsDict s setupNodes [(AttrValue.str "empty", [])]
  if includeEmpty then Except.ok d else dictPop d (AttrValue.str "empty")

/-- Embeds `setSetupName(node, setupName)`: create the string attribute
when missing, then set it. -/
def setSetupName (s : Scene) (node setupName : String) : Except PyError Scene := do
  let b ← mc.attributeQuery s RBF_SETUP_ATTR node
  let s1 ← if b then Except.ok s else mc.addAttr s node RBF_SETUP_ATTR (AttrValue.str "")
  mc.setAttr s1 node RBF_SETUP_ATTR setupName

/-- Embeds `getSetupName(node)`: None when the attribute is absent, its
value otherwise. -/
def getSetupName (s : Scene) (node : String) : Except PyError (Option AttrValue) :=
  match mc.attributeQuery s RBF_SETUP_ATTR node with
  | Except.error e => Except.error e
  | Except.ok b =>
    if b then
      match mc.getAttr s node RBF_SETUP_ATTR with
      | Except.error e => Except.error e
      | Except.ok v => Except.ok (some v)
    else Except.ok none

/-
The RBFNode class.  An instance is embedded as a record of the attributes
`__init__` assigns; `rbfType` is `none` when the attribute was never
assigned.  Abstract methods are embedded as the base-class bodies execute
on the base class itself; `__init__` is embedded parametrically over the
subclass implementations of `create` and `getTransformParent`.
-/

/-- Instance attributes of an RBFNode object. -/
structure RBFNode where
  name : String
  transformNode : Option String
  rbfType : Option String
deriving DecidableEq

/-- Embeds `RBFNode.create`: the base class raises NotImplementedError. -/
def RBFNode.create : Except PyError Unit := Except.error PyError.NotImplementedError

/-- Embeds `RBFNode.getPoseInfo`: raises NotImplementedError. -/
def RBFNode.getPoseInfo : Except PyError Unit := Except.error PyError.NotImplementedError

/-- Embeds `RBFNode.getNodeInfo`: raises NotImplementedError. -/
def RBFNode.getNodeInfo : Except PyError Unit := Except.error PyError.NotImplementedError

/-- Embeds `RBFNode.lengthenCompoundAttrs`: the base class body is `pass`. -/
def RBFNode.lengthenCompoundAttrs : Except PyError Unit := Except.ok ()

/-- Embeds `RBFNode.addPose`: raises NotImplementedError. -/
def RBFNode.addPose : Except PyError Unit := Except.error PyError.NotImplementedError

/-- Embeds `RBFNode.deletePose`: raises NotImplementedError. -/
def RBFNode.deletePose : Except PyError Unit := Except.error PyError.NotImplementedError

/-- Embeds `RBFNode.getDriverNode`: raises NotImplementedError. -/
def RBFNode.getDriverNode : Except PyError Unit := Except.error PyError.NotImplementedError

/-- Embeds `RBFNode.getDriverNodeAttributes`: raises NotImplementedError. -/
def RBFNode.getDriverNodeAttributes : Except PyError Unit := Except.error PyError.NotImplementedError

/-- Embeds `RBFNode.getDrivenNode`: raises NotImplementedError. -/
def RBFNode.getDrivenNode : Except PyError Unit := Except.error PyError.NotImplementedError

/-- Embeds `RBFNode.getDrivenNodeAttributes`: raises NotImplementedError. -/
def RBFNode.getDrivenNodeAttributes : Except PyError Unit := Except.error PyError.NotImplementedError

/-- Embeds `RBFNode.setDriverNode`: raises NotImplementedError. -/
def RBFNode.setDriverNode : Except PyError Unit := Except.error PyError.NotImplementedError

/-- Embeds `RBFNode.setDrivenNode`: raises NotImplementedError. -/
def RBFNode.setDrivenNode : Except PyError Unit := Except.error PyError.NotImplementedError

/-- Embeds `RBFNode.getTransformParent`: the source body is the bare
expression `NotImplementedError()` with no `raise`, so on the base class
the call constructs the exception object, discards it, and returns None. -/
def RBFNode.getTransformParent : Except PyError Unit := Except.ok ()

/-- Embeds `RBFNode.copyPoses`: bare `NotImplementedError()` with no
`raise`; the call returns None. -/
def RBFNode.copyPoses : Except PyError Unit := Except.ok ()

/-- Embeds `RBFNode.recallDriverPose`: bare `NotImplementedError()` with no
`raise`; the call returns None. -/
def RBFNode.recallDriverPose : Except PyError Unit := Except.ok ()

/-- Embeds `RBFNode.forceEvaluation`: bare `NotImplementedError()` with no
`raise`; the call returns None. -/
def RBFNode.forceEvaluation : Except PyError Unit := Except.ok ()

/-- Embeds `RBFNode.getRBFToggleAttr`: bare `NotImplementedError()` with no
`raise` (the intended `return "scale"` is commented out); the call returns
None. -/
def RBFNode.getRBFToggleAttr : Except PyError Unit := Except.ok ()

/-- Embeds `RBFNode.__init__(name)`, parametric over the subclass
implementations of `create` and `getTransformParent`.  The guard is
`mc.objExists(name) and mc.nodeType(name) in SUPPORTED_RBF_NODES`. -/
def RBFNode.init (s : Scene) (name : String)
    (createImpl : Scene → String → Except PyError Scene)
    (getTransformParentImpl : Scene → String → Except PyError (Option String)) :
    Except PyError (RBFNode × Scene) :=
  if (Scene.findNode s name).any (fun nd => decide (nd.nodeType ∈ SUPPORTED_RBF_NODES)) then do
    let rbfType ← mc.nodeType s name
    let transformNode ← getTransformParentImpl s name
    let _ ← RBFNode.lengthenCompoundAttrs
    Except.ok ({ name := name, transformNode := transformNode, rbfType := some rbfType }, s)
  else do
    let s1 ← createImpl s name
    let s2 ← createDriverControlAttr s1 name
    Except.ok ({ name := name, transformNode := none, rbfType := none }, s2)

/-- Embeds the method `RBFNode.getDriverControlAttr`, parametric over the
result of the subclass `getDriverNode`; `[0]` on an empty list raises
IndexError as in Python. -/
def RBFNode.getDriverControlAttrMethod (s : Scene) (name : String)
    (getDriverNodeRes : Except PyError (List String)) : Except PyError AttrValue :=
  match getDriverControlAttr s name with
  | Except.error e => Except.error e
  | Except.ok driverControl =>
    if driverControl = AttrValue.str "" then
      match getDriverNodeRes with
      | Except.error e => Except.error e
      | Except.ok [] => Except.error (PyError.IndexError "list index out of range")
      | Except.ok (d :: _) => Except.ok (AttrValue.str d)
    else Except.ok driverControl

/-
Helper lemmas about the scene model.
-/

/-- find? over a keyed conditional map touches exactly the found element. -/
theorem find?_map_if {α β : Type} [DecidableEq β] (l : List α) (key : α → β) (k : β) (f : α → α)
    (hf : ∀ x, key (f x) = key x) :
    (l.map fun x => if key x = k then f x else x).find? (fun x => decide (key x = k)) =
      (l.find? fun x => decide (key x = k)).map f := by
  induction l with
  | nil => simp
  | cons hd tl ih =>
    by_cases h : key hd = k
    · simp [List.find?, h, hf]
    · simp [List.find?, h, hf, ih]

/-- Looking up the updated name finds the transformed node. -/
theorem findNode_updateNode (s : Scene) (n : String) (f : MayaNode → MayaNode)
    (hf : ∀ nd, (f nd).name = nd.name) :
    Scene.findNode (Scene.updateNode s n f) n = (Scene.findNode s n).map f := by
  unfold Scene.findNode Scene.updateNode
  exact find?_map_if s.nodes MayaNode.name n f hf

/-- Setting an attribute value rewrites the found attribute. -/
theorem findAttr_setAttrValue_self (nd : MayaNode) (an : String) (v : AttrValue) :
    (nd.setAttrValue an v).findAttr an = (nd.findAttr an).map fun a => { a with value := v } := by
  unfold MayaNode.findAttr MayaNode.setAttrValue
  exact find?_map_if nd.attrs MayaAttr.attrName an _ (fun a => rfl)

/-- find? over an appended singleton when the prefix has no match. -/
theorem find?_append_of_none {α : Type} (l : List α) (x : α) (p : α → Bool)
    (h : l.find? p = none) :
    (l ++ [x]).find? p = if p x then some x else none := by
  induction l with
  | nil => cases hp : p x <;> simp [List.find?, hp]
  | cons hd tl ih =>
    rw [List.find?_cons] at h
    cases hp : p hd with
    | true => simp [hp] at h
    | false =>
      rw [hp] at h
      simp only [List.cons_append, List.find?_cons, hp]
      exact ih h

/-- Appending a fresh attribute makes it the one found under its name. -/
theorem findAttr_addAttrRaw_self (nd : MayaNode) (a : MayaAttr)
    (h : nd.hasAttr a.attrName = false) :
    (nd.addAttrRaw a).findAttr a.attrName = some a := by
  unfold MayaNode.hasAttr at h
  have hnone : nd.findAttr a.attrName = none := by
    cases hfa : nd.findAttr a.attrName with
    | none => rfl
    | some b => rw [hfa] at h; simp at h
  unfold MayaNode.findAttr at hnone ⊢
  unfold MayaNode.addAttrRaw
  rw [find?_append_of_none nd.attrs a _ hnone]
  simp

/-- After a successful string setAttr, getAttr returns the new value. -/
theorem getAttr_after_setAttr (s s' : Scene) (node an : String) (v : String)
    (h : mc.setAttr s node an v = Except.ok s') :
    mc.getAttr s' node an = Except.ok (AttrValue.str v) := by
  cases hn : Scene.findNode s node with
  | none => simp [mc.setAttr, hn] at h
  | some nd =>
    cases ha : nd.findAttr an with
    | none => simp [mc.setAttr, hn, ha] at h
    | some a =>
      cases hv : a.value with
      | flt x => simp [mc.setAttr, hn, ha, hv] at h
      | str w =>
        simp only [mc.setAttr, hn, ha, hv, Except.ok.injEq] at h
        subst h
        unfold mc.getAttr
        rw [findNode_updateNode s node (fun m => m.setAttrValue an (AttrValue.str v)) (fun m => rfl), hn]
        simp [findAttr_setAttrValue_self, ha]

/-- After a successful string setAttr, the attribute still exists. -/
theorem attributeQuery_after_setAttr (s s' : Scene) (node an : String) (v : String)
    (h : mc.setAttr s node an v = Except.ok s') :
    mc.attributeQuery s' an node = Except.ok true := by
  cases hn : Scene.findNode s node with
  | none => simp [mc.setAttr, hn] at h
  | some nd =>
    cases ha : nd.findAttr an with
    | none => simp [mc.setAttr, hn, ha] at h
    | some a =>
      cases hv : a.value with
      | flt x => simp [mc.setAttr, hn, ha, hv] at h
      | str w =>
        simp only [mc.setAttr, hn, ha, hv, Except.ok.injEq] at h
        subst h
        unfold mc.attributeQuery
        rw [findNode_updateNode s node (fun m => m.setAttrValue an (AttrValue.str v)) (fun m => rfl), hn]
        simp [MayaNode.hasAttr, findAttr_setAttrValue_self, ha]

/-- After a successful addAttr of a string attribute, setAttr succeeds. -/
theorem setAttr_after_addAttr (s s' : Scene) (node an d v : String)
    (h : mc.addAttr s node an (AttrValue.str d) = Except.ok s') :
    mc.setAttr s' node an v =
      Except.ok (Scene.updateNode s' node fun m => m.setAttrValue an (AttrValue.str v)) := by
  cases hn : Scene.findNode s node with
  | none => simp [mc.addAttr, hn] at h
  | some nd =>
    cases hA : nd.hasAttr an with
    | true => simp [mc.addAttr, hn, hA] at h
    | false =>
      simp only [mc.addAttr, hn, hA, Bool.false_eq_true, if_false, Except.ok.injEq] at h
      subst h
      unfold mc.setAttr
      rw [findNode_updateNode s node
            (fun m => m.addAttrRaw ⟨an, AttrValue.str d, true⟩) (fun m => rfl), hn]
      simp [findAttr_addAttrRaw_self nd ⟨an, AttrValue.str d, true⟩ hA]

/-- Characterization of createRBFToggleAttr: the already-exists RuntimeError
is turned into success with the scene unchanged; otherwise the raw addAttr
result (success or any other host error) is passed through. -/
theorem createRBFToggleAttr_eq (s : Scene) (node : String) :
    createRBFToggleAttr s node =
      (if hasAttrOn s node RBF_SCALE_ATTR = true then Except.ok s
       else mc.addAttr s node RBF_SCALE_ATTR (AttrValue.flt 1)) := by
  cases hn : Scene.findNode s node with
  | none => simp [createRBFToggleAttr, mc.addAttr, hasAttrOn, hn]
  | some nd =>
    cases hA : nd.hasAttr RBF_SCALE_ATTR with
    | true => simp [createRBFToggleAttr, mc.addAttr, hasAttrOn, hn, hA]
    | false => simp [createRBFToggleAttr, mc.addAttr, hasAttrOn, hn, hA]

/-- Characterization of createDriverControlAttr, as for the toggle attr. -/
theorem createDriverControlAttr_eq (s : Scene) (node : String) :
    createDriverControlAttr s node =
      (if hasAttrOn s node DRIVER_CTL_ATTR_NAME = true then Except.ok s
       else mc.addAttr s node DRIVER_CTL_ATTR_NAME (AttrValue.str "")) := by
  cases hn : Scene.findNode s node with
  | none => simp [createDriverControlAttr, mc.addAttr, hasAttrOn, hn]
  | some nd =>
    cases hA : nd.hasAttr DRIVER_CTL_ATTR_NAME with
    | true => simp [createDriverControlAttr, mc.addAttr, hasAttrOn, hn, hA]
    | false => simp [createDriverControlAttr, mc.addAttr, hasAttrOn, hn, hA]

/-- Characterization of deleteRBFToggleAttr: the missing-plug ValueError is
turned into success with the scene unchanged; otherwise the raw deleteAttr
result (success or the static-attribute RuntimeError) is passed through. -/
theorem deleteRBFToggleAttr_eq (s : Scene) (node : String) :
    deleteRBFToggleAttr s node =
      (if hasAttrOn s node RBF_SCALE_ATTR = true then mc.deleteAttr s node RBF_SCALE_ATTR
       else Except.ok s) := by
  cases hn : Scene.findNode s node with
  | none => simp [deleteRBFToggleAttr, mc.deleteAttr, hasAttrOn, hn]
  | some nd =>
    cases ha : nd.findAttr RBF_SCALE_ATTR with
    | none => simp [deleteRBFToggleAttr, mc.deleteAttr, hasAttrOn, MayaNode.hasAttr, hn, ha]
    | some a =>
      cases hd : a.dynamic with
      | true => simp [deleteRBFToggleAttr, mc.deleteAttr, hasAttrOn, MayaNode.hasAttr, hn, ha, hd]
      | false => simp [deleteRBFToggleAttr, mc.deleteAttr, hasAttrOn, MayaNode.hasAttr, hn, ha, hd]

/-
Claim theorems.
-/

/-- C1: the claim says every deferred operation of the abstract base class
RBFNode raises NotImplementedError when called on the base class.  This
theorem evaluates all sixteen base-class bodies: eleven do raise, but
getTransformParent, copyPoses, recallDriverPose, forceEvaluation and
getRBFToggleAttr only construct `NotImplementedError()` without `raise`
and therefore return None (`Except.ok ()`), contradicting the claim. -/
theorem rbf_C1_evaluation :
    RBFNode.create = Except.error PyError.NotImplementedError ∧
    RBFNode.getPoseInfo = Except.error PyError.NotImplementedError ∧
    RBFNode.getNodeInfo = Except.error PyError.NotImplementedError ∧
    RBFNode.addPose = Except.error PyError.NotImplementedError ∧
    RBFNode.deletePose = Except.error PyError.NotImplementedError ∧
    RBFNode.getDriverNode = Except.error PyError.NotImplementedError ∧
    RBFNode.getDriverNodeAttributes = Except.error PyError.NotImplementedError ∧
    RBFNode.getDrivenNode = Except.error PyError.NotImplementedError ∧
    RBFNode.getDrivenNodeAttributes = Except.error PyError.NotImplementedError ∧
    RBFNode.setDriverNode = Except.error PyError.NotImplementedError ∧
    RBFNode.setDrivenNode = Except.error PyError.NotImplementedError ∧
    RBFNode.getTransformParent = Except.ok () ∧
    RBFNode.copyPoses = Except.ok () ∧
    RBFNode.recallDriverPose = Except.ok () ∧
    RBFNode.forceEvaluation = Except.ok () ∧
    RBFNode.getRBFToggleAttr = Except.ok () :=
  ⟨rfl, rfl, rfl, rfl, rfl, rfl, rfl, rfl, rfl, rfl, rfl, rfl, rfl, rfl, rfl, rfl⟩

/-- C2: the attribute helpers suppress only the host exception of an
already-existing attribute (creation: the scene is returned unchanged and
no error is raised) or an already-absent plug (deletion), and in every
other situation the raw host result, success or failure, is passed through
unchanged. -/
theorem rbf_C2_suppression (s : Scene) (node : String) :
    createRBFToggleAttr s node =
        (if hasAttrOn s node RBF_SCALE_ATTR = true then Except.ok s
         else mc.addAttr s node RBF_SCALE_ATTR (AttrValue.flt 1)) ∧
    createDriverControlAttr s node =
        (if hasAttrOn s node DRIVER_CTL_ATTR_NAME = true then Except.ok s
         else mc.addAttr s node DRIVER_CTL_ATTR_NAME (AttrValue.str "")) ∧
    deleteRBFToggleAttr s node =
        (if hasAttrOn s node RBF_SCALE_ATTR = true then mc.deleteAttr s node RBF_SCALE_ATTR
         else Except.ok s) :=
  ⟨createRBFToggleAttr_eq s node, createDriverControlAttr_eq s node,
   deleteRBFToggleAttr_eq s node⟩

/-- Certified evaluation of the two-placeholder format string of
`addDrivenGroup` on the single argument DRIVEN_SUFFIX: the second field
has no argument, so Python raises IndexError. -/
theorem pyFormat_two_placeholders_one_arg :
    pyFormat "\x7b\x7d\x7b\x7d" [DRIVEN_SUFFIX] =
      Except.error (PyError.IndexError "Replacement index out of range for positional args tuple") := by
  decide

/-- The name "child" does not end in the control suffix. -/
theorem child_not_ctl : pyEndsWith "child" CTL_SUFFIX = false := by
  decide

/-- C3: on an existing node that has a parent and whose name does not end
in the control suffix, addDrivenGroup raises IndexError while building the
driven name, and the returned scene is the input scene: no group was
created and no reparenting happened. -/
theorem rbf_C3_indexError (s : Scene) (node : String) (nd : MayaNode) (p : String)
    (hfind : Scene.findNode s node = some nd)
    (hpar : nd.parent = some p)
    (hctl : pyEndsWith node CTL_SUFFIX = false) :
    addDrivenGroup s node =
      (Except.error (PyError.IndexError "Replacement index out of range for positional args tuple"), s) := by
  simp [addDrivenGroup, mc.listRelativesParent, hfind, hpar, hctl,
        pyFormat_two_placeholders_one_arg]

/-- Scene used to witness C3: a transform "child" parented under "base". -/
def sceneC3 : Scene :=
  ⟨[⟨"base", "transform", none, []⟩, ⟨"child", "transform", some "base", []⟩]⟩

/-- Witness for C3 at a concrete scene: the hypotheses hold for the node
"child" and addDrivenGroup returns the IndexError with the scene intact. -/
theorem rbf_C3_witness :
    addDrivenGroup sceneC3 "child" =
      (Except.error (PyError.IndexError "Replacement index out of range for positional args tuple"), sceneC3) :=
  rbf_C3_indexError sceneC3 "child" ⟨"child", "transform", some "base", []⟩ "base"
    (by decide) (by decide) child_not_ctl

/-- C4: after a successful setDriverControlAttr(node, controlName), which
creates the string attribute driverControlName when missing,
getDriverControlAttr(node) returns controlName. -/
theorem rbf_C4_roundtrip (s s' : Scene) (node controlName : String)
    (hset : setDriverControlAttr s node controlName = Except.ok s') :
    getDriverControlAttr s' node = Except.ok (AttrValue.str controlName) := by
  cases hn : Scene.findNode s node with
  | none => simp [setDriverControlAttr, mc.attributeQuery, hn, Bind.bind, Except.bind] at hset
  | some nd =>
    cases hA : nd.hasAttr DRIVER_CTL_ATTR_NAME with
    | true =>
      have hset2 : mc.setAttr s node DRIVER_CTL_ATTR_NAME controlName = Except.ok s' := by
        simpa [setDriverControlAttr, mc.attributeQuery, hn, hA, Bind.bind, Except.bind] using hset
      have hg := getAttr_after_setAttr s s' node DRIVER_CTL_ATTR_NAME controlName hset2
      simp [getDriverControlAttr, hg]
    | false =>
      have haddok : mc.addAttr s node DRIVER_CTL_ATTR_NAME (AttrValue.str "") =
          Except.ok (Scene.updateNode s node fun m =>
            m.addAttrRaw ⟨DRIVER_CTL_ATTR_NAME, AttrValue.str "", true⟩) := by
        simp [mc.addAttr, hn, hA]
      have hc : createDriverControlAttr s node =
          Except.ok (Scene.updateNode s node fun m =>
            m.addAttrRaw ⟨DRIVER_CTL_ATTR_NAME, AttrValue.str "", true⟩) := by
        rw [createDriverControlAttr_eq]
        simp [hasAttrOn, hn, hA, haddok]
      have hset2 : mc.setAttr
          (Scene.updateNode s node fun m =>
            m.addAttrRaw ⟨DRIVER_CTL_ATTR_NAME, AttrValue.str "", true⟩)
          node DRIVER_CTL_ATTR_NAME controlName = Except.ok s' := by
        simpa [setDriverControlAttr, mc.attributeQuery, hn, hA, hc, Bind.bind, Except.bind]
          using hset
      have hg := getAttr_after_setAttr _ s' node DRIVER_CTL_ATTR_NAME controlName hset2
      simp [getDriverControlAttr, hg]

/-- Scene used to witness C4: one weightDriver node without attributes. -/
def sceneC4 : Scene := ⟨[⟨"wd", "weightDriver", none, []⟩]⟩

/-- Scene after the C4 witness set: the driver control attribute holds the
control name. -/
def sceneC4after : Scene :=
  ⟨[⟨"wd", "weightDriver", none, [⟨"driverControlName", AttrValue.str "armUI_ctl", true⟩]⟩]⟩

/-- Witness for C4 at a concrete scene. -/
theorem rbf_C4_witness :
    getDriverControlAttr sceneC4after "wd" = Except.ok (AttrValue.str "armUI_ctl") :=
  rbf_C4_roundtrip sceneC4 sceneC4after "wd" "armUI_ctl" (by decide)

/-- C5: the method RBFNode.getDriverControlAttr falls back to the first
driver node when the stored driver-control string is empty, and returns
the stored string otherwise.  The subclass getDriverNode result is a
parameter. -/
theorem rbf_C5_fallback (s : Scene) (name : String) (res : Except PyError (List String)) (w : String)
    (hget : mc.getAttr s name DRIVER_CTL_ATTR_NAME = Except.ok (AttrValue.str w)) :
    (w = "" → ∀ d rest, res = Except.ok (d :: rest) →
       RBFNode.getDriverControlAttrMethod s name res = Except.ok (AttrValue.str d)) ∧
    (w ≠ "" → RBFNode.getDriverControlAttrMethod s name res = Except.ok (AttrValue.str w)) := by
  constructor
  · intro hw d rest hres
    subst hw
    subst hres
    simp [RBFNode.getDriverControlAttrMethod, getDriverControlAttr, hget]
  · intro hw
    simp [RBFNode.getDriverControlAttrMethod, getDriverControlAttr, hget, hw]

/-- Scene used to witness C5: the stored driver control string is empty. -/
def sceneC5 : Scene :=
  ⟨[⟨"wd", "weightDriver", none, [⟨"driverControlName", AttrValue.str "", true⟩]⟩]⟩

/-- Scene used to witness C5: the stored driver control string is set. -/
def sceneC5b : Scene :=
  ⟨[⟨"wd", "weightDriver", none, [⟨"driverControlName", AttrValue.str "legUI_ctl", true⟩]⟩]⟩

/-- Witness for C5 at concrete scenes: the empty stored string falls back
to the first driver node; a nonempty stored string is returned as is. -/
theorem rbf_C5_witness :
    RBFNode.getDriverControlAttrMethod sceneC5 "wd" (Except.ok ["driverA"]) =
        Except.ok (AttrValue.str "driverA") ∧
    RBFNode.getDriverControlAttrMethod sceneC5b "wd" (Except.ok ["driverA"]) =
        Except.ok (AttrValue.str "legUI_ctl") :=
  ⟨(rbf_C5_fallback sceneC5 "wd" (Except.ok ["driverA"]) "" (by decide)).1 rfl "driverA" [] rfl,
   (rbf_C5_fallback sceneC5b "wd" (Except.ok ["driverA"]) "legUI_ctl" (by decide)).2 (by decide)⟩

/-- C6: after a successful setSetupName(node, setupName), which creates the
string attribute rbf_setup_name when missing, getSetupName(node) returns
setupName; and on a node that does not carry the attribute, getSetupName
returns None. -/
theorem rbf_C6_roundtrip (s s' t : Scene) (node setupName : String) (nd : MayaNode)
    (hset : setSetupName s node setupName = Except.ok s')
    (hfind : Scene.findNode t node = some nd)
    (hno : nd.hasAttr RBF_SETUP_ATTR = false) :
    getSetupName s' node = Except.ok (some (AttrValue.str setupName)) ∧
    getSetupName t node = Except.ok none := by
  constructor
  · cases hn : Scene.findNode s node with
    | none => simp [setSetupName, mc.attributeQuery, hn, Bind.bind, Except.bind] at hset
    | some nd0 =>
      cases hA : nd0.hasAttr RBF_SETUP_ATTR with
      | true =>
        have hset2 : mc.setAttr s node RBF_SETUP_ATTR setupName = Except.ok s' := by
          simpa [setSetupName, mc.attributeQuery, hn, hA, Bind.bind, Except.bind] using hset
        have hq := attributeQuery_after_setAttr s s' node RBF_SETUP_ATTR setupName hset2
        have hg := getAttr_after_setAttr s s' node RBF_SETUP_ATTR setupName hset2
        simp [getSetupName, hq, hg]
      | false =>
        have haddok : mc.addAttr s node RBF_SETUP_ATTR (AttrValue.str "") =
            Except.ok (Scene.updateNode s node fun m =>
              m.addAttrRaw ⟨RBF_SETUP_ATTR, AttrValue.str "", true⟩) := by
          simp [mc.addAttr, hn, hA]
        have hset2 : mc.setAttr
            (Scene.updateNode s node fun m =>
              m.addAttrRaw ⟨RBF_SETUP_ATTR, AttrValue.str "", true⟩)
            node RBF_SETUP_ATTR setupName = Except.ok s' := by
          simpa [setSetupName, mc.attributeQuery, hn, hA, haddok, Bind.bind, Except.bind]
            using hset
        have hq := attributeQuery_after_setAttr _ s' node RBF_SETUP_ATTR setupName hset2
        have hg := getAttr_after_setAttr _ s' node RBF_SETUP_ATTR setupName hset2
        simp [getSetupName, hq, hg]
  · simp [getSetupName, mc.attributeQuery, hfind, hno]

/-- Scene used to witness C6: one weightDriver node without attributes. -/
def sceneC6 : Scene := ⟨[⟨"wd6", "weightDriver", none, []⟩]⟩

/-- Scene after the C6 witness set: the setup attribute holds the name. -/
def sceneC6after : Scene :=
  ⟨[⟨"wd6", "weightDriver", none, [⟨"rbf_setup_name", AttrValue.str "setupA", true⟩]⟩]⟩

/-- Witness for C6 at a concrete scene. -/
theorem rbf_C6_witness :
    getSetupName sceneC6after "wd6" = Except.ok (some (AttrValue.str "setupA")) ∧
    getSetupName sceneC6 "wd6" = Except.ok none :=
  rbf_C6_roundtrip sceneC6 sceneC6after sceneC6 "wd6" "setupA" ⟨"wd6", "weightDriver", none, []⟩
    (by decide) (by decide) (by decide)

/-- A successful createDriverControlAttr leaves the attribute on the node. -/
theorem hasAttrOn_after_createDriverControlAttr (s s2 : Scene) (node : String)
    (h : createDriverControlAttr s node = Except.ok s2) :
    hasAttrOn s2 node DRIVER_CTL_ATTR_NAME = true := by
  rw [createDriverControlAttr_eq] at h
  by_cases hA : hasAttrOn s node DRIVER_CTL_ATTR_NAME = true
  · rw [if_pos hA] at h
    injection h with h2
    subst h2
    exact hA
  · rw [if_neg hA] at h
    cases hn : Scene.findNode s node with
    | none => simp [mc.addAttr, hn] at h
    | some nd =>
      cases hAnd : nd.hasAttr DRIVER_CTL_ATTR_NAME with
      | true => simp [mc.addAttr, hn, hAnd] at h
      | false =>
        simp only [mc.addAttr, hn, hAnd, Bool.false_eq_true, if_false, Except.ok.injEq] at h
        subst h
        unfold hasAttrOn
        rw [findNode_updateNode s node
              (fun m => m.addAttrRaw ⟨DRIVER_CTL_ATTR_NAME, AttrValue.str "", true⟩)
              (fun m => rfl), hn]
        simp [MayaNode.hasAttr,
              findAttr_addAttrRaw_self nd ⟨DRIVER_CTL_ATTR_NAME, AttrValue.str "", true⟩ hAnd]

/-- C7: RBFNode construction.  When a scene node of the given name exists
and its type is supported, the instance wraps it: rbfType is the node
type, transformNode is the subclass transform parent, the scene is
untouched and the result does not depend on the create implementation.
Otherwise create runs, followed by createDriverControlAttr on the name,
the result does not depend on getTransformParent, and on success the
driver-control attribute is present on the node. -/
theorem rbf_C7_init (s : Scene) (name : String)
    (cr cr2 : Scene → String → Except PyError Scene)
    (gtp gtp2 : Scene → String → Except PyError (Option String)) :
    ((Scene.findNode s name).any (fun nd => decide (nd.nodeType ∈ SUPPORTED_RBF_NODES)) = true →
       RBFNode.init s name cr gtp = RBFNode.init s name cr2 gtp ∧
       (∀ nd tp, Scene.findNode s name = some nd → gtp s name = Except.ok tp →
          RBFNode.init s name cr gtp =
            Except.ok ({ name := name, transformNode := tp, rbfType := some nd.nodeType }, s))) ∧
    ((Scene.findNode s name).any (fun nd => decide (nd.nodeType ∈ SUPPORTED_RBF_NODES)) = false →
       RBFNode.init s name cr gtp = RBFNode.init s name cr gtp2 ∧
       (∀ s1 s2, cr s name = Except.ok s1 → createDriverControlAttr s1 name = Except.ok s2 →
          RBFNode.init s name cr gtp =
            Except.ok ({ name := name, transformNode := none, rbfType := none }, s2) ∧
          hasAttrOn s2 name DRIVER_CTL_ATTR_NAME = true)) := by
  constructor
  · intro hcond
    constructor
    · unfold RBFNode.init
      rw [if_pos hcond, if_pos hcond]
    · intro nd tp hnd hgtp
      unfold RBFNode.init
      rw [if_pos hcond]
      simp [mc.nodeType, hnd, hgtp, RBFNode.lengthenCompoundAttrs, Bind.bind, Except.bind]
  · intro hcond
    have hcond2 : ¬ ((Scene.findNode s name).any
        (fun nd => decide (nd.nodeType ∈ SUPPORTED_RBF_NODES)) = true) := by
      simp [hcond]
    constructor
    · unfold RBFNode.init
      rw [if_neg hcond2, if_neg hcond2]
    · intro s1 s2 hcr hcda
      refine ⟨?_, hasAttrOn_after_createDriverControlAttr s1 s2 name hcda⟩
      unfold RBFNode.init
      rw [if_neg hcond2]
      simp [hcr, hcda, Bind.bind, Except.bind]

/-- Scene used to witness C7: one supported node "wd7". -/
def sceneC7 : Scene := ⟨[⟨"wd7", "weightDriver", none, []⟩]⟩

/-- Create implementation used to witness C7: returns the scene unchanged. -/
def crA : Scene → String → Except PyError Scene := fun s _ => Except.ok s

/-- Second create implementation used to witness C7: fails. -/
def crB : Scene → String → Except PyError Scene :=
  fun _ _ => Except.error PyError.NotImplementedError

/-- Create implementation used to witness C7: adds a node "new1". -/
def crC : Scene → String → Except PyError Scene :=
  fun s _ => Except.ok ⟨s.nodes ++ [⟨"new1", "weightDriver", none, []⟩]⟩

/-- Transform-parent implementation used to witness C7. -/
def gtpA : Scene → String → Except PyError (Option String) :=
  fun _ _ => Except.ok (some "wd7_trfm")

/-- Second transform-parent implementation used to witness C7. -/
def gtpB : Scene → String → Except PyError (Option String) :=
  fun _ _ => Except.ok none

/-- Scene produced by the create branch of the C7 witness. -/
def sceneC7new : Scene :=
  ⟨[⟨"wd7", "weightDriver", none, []⟩,
    ⟨"new1", "weightDriver", none, [⟨"driverControlName", AttrValue.str "", true⟩]⟩]⟩

/-- Witness for C7 at concrete scenes: both the wrapping branch and the
creating branch, with their hypotheses discharged by evaluation. -/
theorem rbf_C7_witness :
    RBFNode.init sceneC7 "wd7" crA gtpA = RBFNode.init sceneC7 "wd7" crB gtpA ∧
    RBFNode.init sceneC7 "wd7" crA gtpA =
      Except.ok ({ name := "wd7", transformNode := some "wd7_trfm",
                   rbfType := some "weightDriver" }, sceneC7) ∧
    RBFNode.init sceneC7 "new1" crC gtpA = RBFNode.init sceneC7 "new1" crC gtpB ∧
    RBFNode.init sceneC7 "new1" crC gtpA =
      Except.ok ({ name := "new1", transformNode := none, rbfType := none }, sceneC7new) ∧
    hasAttrOn sceneC7new "new1" DRIVER_CTL_ATTR_NAME = true :=
  ⟨((rbf_C7_init sceneC7 "wd7" crA crB gtpA gtpA).1 (by decide)).1,
   ((rbf_C7_init sceneC7 "wd7" crA crB gtpA gtpA).1 (by decide)).2
     ⟨"wd7", "weightDriver", none, []⟩ (some "wd7_trfm") (by decide) rfl,
   ((rbf_C7_init sceneC7 "new1" crC crC gtpA gtpB).2 (by decide)).1,
   (((rbf_C7_init sceneC7 "new1" crC crC gtpA gtpB).2 (by decide)).2
     ⟨sceneC7.nodes ++ [⟨"new1", "weightDriver", none, []⟩]⟩ sceneC7new (by decide) (by decide)).1,
   (((rbf_C7_init sceneC7 "new1" crC crC gtpA gtpB).2 (by decide)).2
     ⟨sceneC7.nodes ++ [⟨"new1", "weightDriver", none, []⟩]⟩ sceneC7new (by decide) (by decide)).2⟩

/-- Membership in the embedded `mc.ls`. -/
theorem mem_ls (s : Scene) (types : List String) (n : String) :
    n ∈ mc.ls s types ↔ ∃ nd, nd ∈ s.nodes ∧ nd.name = n ∧ nd.nodeType ∈ types := by
  simp only [mc.ls, List.mem_map, List.mem_filter, decide_eq_true_eq]
  constructor
  · rintro ⟨nd, ⟨hmem, htype⟩, hname⟩
    exact ⟨nd, hmem, hname, htype⟩
  · rintro ⟨nd, hmem, hname, htype⟩
    exact ⟨nd, ⟨hmem, htype⟩, hname⟩

/-- C8: exactly one underlying RBF node type is supported, and
getSceneRBFNodes returns precisely the scene nodes of a supported type. -/
theorem rbf_C8_sceneNodes (s : Scene) (n : String) :
    SUPPORTED_RBF_NODES = ["weightDriver"] ∧
    (n ∈ getSceneRBFNodes s ↔
      ∃ nd, nd ∈ s.nodes ∧ nd.name = n ∧ nd.nodeType ∈ SUPPORTED_RBF_NODES) := by
  refine ⟨rfl, ?_⟩
  have hid : getSceneRBFNodes s = mc.ls s SUPPORTED_RBF_NODES := by
    cases hls : mc.ls s SUPPORTED_RBF_NODES with
    | nil => simp [getSceneRBFNodes, hls]
    | cons a as => simp [getSceneRBFNodes, hls]
  rw [hid]
  exact mem_ls s SUPPORTED_RBF_NODES n

/-- attributeQuery on an existing node reports attribute presence. -/
theorem attributeQuery_of_isSome (s : Scene) (n an : String)
    (h : (Scene.findNode s n).isSome = true) :
    mc.attributeQuery s an n = Except.ok (hasAttrOn s n an) := by
  cases hn : Scene.findNode s n with
  | none => rw [hn] at h; simp at h
  | some nd => simp [mc.attributeQuery, hasAttrOn, hn]

/-- On a list of existing nodes, the setup-attribute filter never fails and
equals a plain filter on attribute presence. -/
theorem hasSetupAttrFilter_eq (s : Scene) (l : List String)
    (h : ∀ n ∈ l, (Scene.findNode s n).isSome = true) :
    hasSetupAttrFilter s l =
      Except.ok (l.filter fun n => hasAttrOn s n RBF_SETUP_ATTR) := by
  induction l with
  | nil => rfl
  | cons hd tl ih =>
    have hhd := h hd (List.mem_cons_self hd tl)
    have htl : ∀ n ∈ tl, (Scene.findNode s n).isSome = true :=
      fun n hn => h n (List.mem_cons_of_mem hd hn)
    have hq := attributeQuery_of_isSome s hd RBF_SETUP_ATTR hhd
    cases hA : hasAttrOn s hd RBF_SETUP_ATTR with
    | true =>
      rw [hA] at hq
      simp [hasSetupAttrFilter, hq, ih htl, List.filter_cons, hA]
    | false =>
      rw [hA] at hq
      simp [hasSetupAttrFilter, hq, ih htl, List.filter_cons, hA]

/-- Names returned by the embedded `mc.ls` exist in the scene. -/
theorem ls_exists (s : Scene) (types : List String) (n : String)
    (h : n ∈ mc.ls s types) :
    (Scene.findNode s n).isSome = true := by
  rcases (mem_ls s types n).1 h with ⟨nd, hmem, hname, _⟩
  unfold Scene.findNode
  rw [List.find?_isSome]
  exact ⟨nd, hmem, by simp [hname]⟩

/-- Under unique node names, the lookup finds exactly the member node with
the wanted name. -/
theorem find?_name_nodup (l : List MayaNode) (n : String) (nd : MayaNode)
    (hnd : (l.map MayaNode.name).Nodup) (hmem : nd ∈ l) (hname : nd.name = n) :
    l.find? (fun x => decide (x.name = n)) = some nd := by
  induction l with
  | nil => cases hmem
  | cons hd tl ih =>
    have hnd2 : (∀ x ∈ tl, ¬ x.name = hd.name) ∧ (tl.map MayaNode.name).Nodup := by
      simpa using hnd
    rcases List.mem_cons.1 hmem with h1 | h2
    · subst h1
      simp [List.find?_cons_of_pos, hname]
    · by_cases hh : hd.name = n
      · exact absurd (hname.trans hh.symm) (hnd2.1 nd h2)
      · rw [List.find?_cons_of_neg _ (by simpa using hh)]
        exact ih hnd2.2 h2

/-- Scene-level wrapper of `find?_name_nodup`. -/
theorem findNode_nodup (s : Scene) (n : String) (nd : MayaNode)
    (hnd : (s.nodes.map MayaNode.name).Nodup) (hmem : nd ∈ s.nodes) (hname : nd.name = n) :
    Scene.findNode s n = some nd :=
  find?_name_nodup s.nodes n nd hnd hmem hname

/-- C9: under host-enforced name uniqueness, getSceneSetupNodes returns
exactly the scene nodes of a supported RBF type carrying the
rbf_setup_name attribute. -/
theorem rbf_C9_setupNodes (s : Scene) (L : List String)
    (hnd : (s.nodes.map MayaNode.name).Nodup)
    (hL : getSceneSetupNodes s = Except.ok L) (n : String) :
    n ∈ L ↔ ∃ nd, nd ∈ s.nodes ∧ nd.name = n ∧
      nd.nodeType ∈ SUPPORTED_RBF_NODES ∧ nd.hasAttr RBF_SETUP_ATTR = true := by
  have hex : ∀ m ∈ (mc.ls s SUPPORTED_RBF_NODES).dedup, (Scene.findNode s m).isSome = true :=
    fun m hm => ls_exists s _ m (List.mem_dedup.1 hm)
  have heq := hasSetupAttrFilter_eq s (mc.ls s SUPPORTED_RBF_NODES).dedup hex
  have hLeq : L = ((mc.ls s SUPPORTED_RBF_NODES).dedup.filter
      fun m => hasAttrOn s m RBF_SETUP_ATTR) := by
    have h2 := hL
    unfold getSceneSetupNodes at h2
    rw [heq] at h2
    injection h2 with h3
    exact h3.symm
  subst hLeq
  constructor
  · intro hmem
    have h1 := List.mem_filter.1 hmem
    have h2 := List.mem_dedup.1 h1.1
    rcases (mem_ls s _ n).1 h2 with ⟨nd, hm, hname, htype⟩
    have hfind := findNode_nodup s n nd hnd hm hname
    have hA : nd.hasAttr RBF_SETUP_ATTR = true := by
      have h3 := h1.2
      unfold hasAttrOn at h3
      rw [hfind] at h3
      simpa using h3
    exact ⟨nd, hm, hname, htype, hA⟩
  · rintro ⟨nd, hm, hname, htype, hA⟩
    refine List.mem_filter.2 ⟨List.mem_dedup.2 ((mem_ls s _ n).2 ⟨nd, hm, hname, htype⟩), ?_⟩
    unfold hasAttrOn
    rw [findNode_nodup s n nd hnd hm hname]
    simpa using hA

/-- Scene used to witness C9: a supported node with the setup attribute
and an unsupported transform node. -/
def sceneC9 : Scene :=
  ⟨[⟨"wd1", "weightDriver", none, [⟨"rbf_setup_name", AttrValue.str "A", true⟩]⟩,
    ⟨"tr1", "transform", none, []⟩]⟩

/-- Witness for C9 at a concrete scene. -/
theorem rbf_C9_witness :
    "wd1" ∈ ["wd1"] ↔ ∃ nd, nd ∈ sceneC9.nodes ∧ nd.name = "wd1" ∧
      nd.nodeType ∈ SUPPORTED_RBF_NODES ∧ nd.hasAttr RBF_SETUP_ATTR = true :=
  rbf_C9_setupNodes sceneC9 ["wd1"] (by decide) (by decide) "wd1"

/-- Total number of occurrences of a node name across all lists of the
setups dict. -/
def dictCount (d : List (AttrValue × List String)) (n : String) : Nat :=
  (d.map fun e => e.2.count n).sum

/-- The list stored under a key of the setups dict (empty when absent). -/
def dictEntry (d : List (AttrValue × List String)) (k : AttrValue) : List String :=
  ((d.find? fun e => decide (e.1 = k)).map Prod.snd).getD []

/-- Unfolding of dictCount on a cons. -/
theorem dictCount_cons (e : AttrValue × List String) (d : List (AttrValue × List String))
    (n : String) :
    dictCount (e :: d) n = e.2.count n + dictCount d n := by
  simp [dictCount]

/-- Appending a value under some key adds one occurrence of it. -/
theorem dictCount_dictAppend_self (d : List (AttrValue × List String)) (k : AttrValue)
    (n : String) :
    dictCount (dictAppend d k n) n = dictCount d n + 1 := by
  induction d with
  | nil => simp [dictAppend, dictCount]
  | cons e rest ih =>
    by_cases he : e.1 = k
    · simp only [dictAppend, if_pos he, dictCount_cons, List.count_append]
      simp only [List.count_cons_self, List.count_nil]
      omega
    · simp only [dictAppend, if_neg he, dictCount_cons, ih]
      omega

/-- Appending some other value does not change the count of this one. -/
theorem dictCount_dictAppend_ne (d : List (AttrValue × List String)) (k : AttrValue)
    (v n : String) (h : v ≠ n) :
    dictCount (dictAppend d k v) n = dictCount d n := by
  induction d with
  | nil => simp [dictAppend, dictCount, List.count_cons_of_ne (Ne.symm h)]
  | cons e rest ih =>
    by_cases he : e.1 = k
    · simp only [dictAppend, if_pos he, dictCount_cons, List.count_append]
      simp [List.count_cons_of_ne (Ne.symm h)]
    · simp only [dictAppend, if_neg he, dictCount_cons, ih]

/-- Head entry of the dict whose key matches. -/
theorem dictEntry_cons_pos (e : AttrValue × List String) (rest : List (AttrValue × List String))
    (k : AttrValue) (h : e.1 = k) :
    dictEntry (e :: rest) k = e.2 := by
  unfold dictEntry
  rw [List.find?_cons_of_pos _ (by simp [h])]
  rfl

/-- A non-matching head entry is skipped by the lookup. -/
theorem dictEntry_cons_neg (e : AttrValue × List String) (rest : List (AttrValue × List String))
    (k : AttrValue) (h : ¬ e.1 = k) :
    dictEntry (e :: rest) k = dictEntry rest k := by
  unfold dictEntry
  rw [List.find?_cons_of_neg _ (by simp [h])]

/-- The entry of the appended key grows by the value. -/
theorem dictEntry_dictAppend_self (d : List (AttrValue × List String)) (k : AttrValue)
    (v : String) :
    dictEntry (dictAppend d k v) k = dictEntry d k ++ [v] := by
  induction d with
  | nil =>
    show dictEntry [(k, [v])] k = dictEntry [] k ++ [v]
    rw [dictEntry_cons_pos (k, [v]) [] k rfl]
    rfl
  | cons e rest ih =>
    by_cases he : e.1 = k
    · have hred : dictAppend (e :: rest) k v = (e.1, e.2 ++ [v]) :: rest := by
        simp [dictAppend, he]
      rw [hred, dictEntry_cons_pos (e.1, e.2 ++ [v]) rest k he, dictEntry_cons_pos e rest k he]
    · have hred : dictAppend (e :: rest) k v = e :: dictAppend rest k v := by
        simp [dictAppend, he]
      rw [hred, dictEntry_cons_neg e _ k he, dictEntry_cons_neg e rest k he]
      exact ih

/-- Entries of other keys are untouched by dictAppend. -/
theorem dictEntry_dictAppend_ne (d : List (AttrValue × List String)) (k kp : AttrValue)
    (v : String) (h : kp ≠ k) :
    dictEntry (dictAppend d kp v) k = dictEntry d k := by
  induction d with
  | nil =>
    show dictEntry [(kp, [v])] k = dictEntry [] k
    exact dictEntry_cons_neg (kp, [v]) [] k h
  | cons e rest ih =>
    by_cases he : e.1 = kp
    · have hred : dictAppend (e :: rest) kp v = (e.1, e.2 ++ [v]) :: rest := by
        simp [dictAppend, he]
      have hke : ¬ e.1 = k := by rw [he]; exact h
      rw [hred, dictEntry_cons_neg (e.1, e.2 ++ [v]) rest k hke, dictEntry_cons_neg e rest k hke]
    · have hred : dictAppend (e :: rest) kp v = e :: dictAppend rest kp v := by
        simp [dictAppend, he]
      by_cases hek : e.1 = k
      · rw [hred, dictEntry_cons_pos e _ k hek, dictEntry_cons_pos e rest k hek]
      · rw [hred, dictEntry_cons_neg e _ k hek, dictEntry_cons_neg e rest k hek]
        exact ih

/-- Membership in an entry is preserved by dictAppend. -/
theorem mem_dictEntry_dictAppend (d : List (AttrValue × List String)) (k kp : AttrValue)
    (v n : String) (h : n ∈ dictEntry d k) :
    n ∈ dictEntry (dictAppend d kp v) k := by
  by_cases hk : kp = k
  · subst hk
    rw [dictEntry_dictAppend_self]
    exact List.mem_append_left _ h
  · rw [dictEntry_dictAppend_ne d k kp v hk]
    exact h

/-- Nodes outside the processed list do not change their count. -/
theorem buildSetupsDict_count_notmem (s : Scene) (L : List String)
    (d d2 : List (AttrValue × List String)) (n : String)
    (hn : n ∉ L) (hb : buildSetupsDict s L d = Except.ok d2) :
    dictCount d2 n = dictCount d n := by
  induction L generalizing d with
  | nil =>
    simp only [buildSetupsDict, Except.ok.injEq] at hb
    rw [hb]
  | cons hd tl ih =>
    have hn2 : n ∉ tl := fun c => hn (List.mem_cons_of_mem hd c)
    have hne : hd ≠ n := fun c => hn (c ▸ List.mem_cons_self hd tl)
    cases hv : mc.getAttr s hd RBF_SETUP_ATTR with
    | error e => simp [buildSetupsDict, hv] at hb
    | ok v =>
      simp only [buildSetupsDict, hv] at hb
      by_cases hvv : v = AttrValue.str ""
      · rw [if_pos hvv] at hb
        rw [ih _ hn2 hb, dictCount_dictAppend_ne _ _ _ _ hne]
      · rw [if_neg hvv] at hb
        rw [ih _ hn2 hb, dictCount_dictAppend_ne _ _ _ _ hne]

/-- Membership in an entry is preserved by the whole build loop. -/
theorem buildSetupsDict_entry_mono (s : Scene) (L : List String)
    (d d2 : List (AttrValue × List String)) (k : AttrValue) (n : String)
    (hmem : n ∈ dictEntry d k) (hb : buildSetupsDict s L d = Except.ok d2) :
    n ∈ dictEntry d2 k := by
  induction L generalizing d with
  | nil =>
    simp only [buildSetupsDict, Except.ok.injEq] at hb
    exact hb ▸ hmem
  | cons hd tl ih =>
    cases hv : mc.getAttr s hd RBF_SETUP_ATTR with
    | error e => simp [buildSetupsDict, hv] at hb
    | ok v =>
      simp only [buildSetupsDict, hv] at hb
      by_cases hvv : v = AttrValue.str ""
      · rw [if_pos hvv] at hb
        exact ih _ (mem_dictEntry_dictAppend d k _ hd n hmem) hb
      · rw [if_neg hvv] at hb
        exact ih _ (mem_dictEntry_dictAppend d k _ hd n hmem) hb

/-- Each processed node is filed exactly once, under the key derived from
its stored setup name. -/
theorem buildSetupsDict_mem (s : Scene) (L : List String)
    (d d2 : List (AttrValue × List String)) (n : String) (v : AttrValue)
    (hnodup : L.Nodup) (hmem : n ∈ L)
    (hv : mc.getAttr s n RBF_SETUP_ATTR = Except.ok v)
    (hb : buildSetupsDict s L d = Except.ok d2) :
    dictCount d2 n = dictCount d n + 1 ∧
    n ∈ dictEntry d2 (if v = AttrValue.str "" then AttrValue.str "empty" else v) := by
  induction L generalizing d with
  | nil => cases hmem
  | cons hd tl ih =>
    have hnodup2 : hd ∉ tl ∧ tl.Nodup := List.nodup_cons.1 hnodup
    rcases List.mem_cons.1 hmem with rfl | h2
    · simp only [buildSetupsDict, hv] at hb
      have hn2 : n ∉ tl := hnodup2.1
      constructor
      · rw [buildSetupsDict_count_notmem s tl _ d2 n hn2 hb]
        by_cases hvv : v = AttrValue.str ""
        · rw [if_pos hvv, dictCount_dictAppend_self]
        · rw [if_neg hvv, dictCount_dictAppend_self]
      · apply buildSetupsDict_entry_mono s tl _ d2 _ n _ hb
        by_cases hvv : v = AttrValue.str ""
        · rw [if_pos hvv, if_pos hvv, dictEntry_dictAppend_self]
          exact List.mem_append_right _ (List.mem_singleton.2 rfl)
        · rw [if_neg hvv, if_neg hvv, dictEntry_dictAppend_self]
          exact List.mem_append_right _ (List.mem_singleton.2 rfl)
    · have hne : hd ≠ n := fun c => hnodup2.1 (c ▸ h2)
      cases hw : mc.getAttr s hd RBF_SETUP_ATTR with
      | error e => simp [buildSetupsDict, hw] at hb
      | ok w =>
        simp only [buildSetupsDict, hw] at hb
        obtain ⟨hc, hm⟩ := ih _ hnodup2.2 h2 hb
        refine ⟨?_, hm⟩
        rw [hc]
        by_cases hww : w = AttrValue.str ""
        · rw [if_pos hww, dictCount_dictAppend_ne _ _ _ _ hne]
        · rw [if_neg hww, dictCount_dictAppend_ne _ _ _ _ hne]

/-- The setup-node list is duplicate free (it passes through a set). -/
theorem getSceneSetupNodes_nodup (s : Scene) (L : List String)
    (hL : getSceneSetupNodes s = Except.ok L) : L.Nodup := by
  have hex : ∀ m ∈ (mc.ls s SUPPORTED_RBF_NODES).dedup, (Scene.findNode s m).isSome = true :=
    fun m hm => ls_exists s _ m (List.mem_dedup.1 hm)
  have heq := hasSetupAttrFilter_eq s (mc.ls s SUPPORTED_RBF_NODES).dedup hex
  have h2 := hL
  unfold getSceneSetupNodes at h2
  rw [heq] at h2
  injection h2 with h3
  rw [← h3]
  exact (List.nodup_dedup _).filter _

/-- C10: getRbfSceneSetupsInfo partitions the setup nodes.  With
includeEmpty, every setup node occurs exactly once over all lists of the
dict and sits in the entry of its stored setup name (the empty name going
to the key "empty"); without includeEmpty, the key "empty" is absent. -/
theorem rbf_C10_partition (s : Scene) (L : List String)
    (d d2 : List (AttrValue × List String)) (n : String) (v : AttrValue)
    (hL : getSceneSetupNodes s = Except.ok L)
    (hTrue : getRbfSceneSetupsInfo s true = Except.ok d)
    (hFalse : getRbfSceneSetupsInfo s false = Except.ok d2)
    (hn : n ∈ L)
    (hv : mc.getAttr s n RBF_SETUP_ATTR = Except.ok v) :
    dictCount d n = 1 ∧
    n ∈ dictEntry d (if v = AttrValue.str "" then AttrValue.str "empty" else v) ∧
    AttrValue.str "empty" ∉ d2.map Prod.fst := by
  cases hb : buildSetupsDict s L [(AttrValue.str "empty", [])] with
  | error e =>
    simp [getRbfSceneSetupsInfo, hL, hb, Bind.bind, Except.bind] at hTrue
  | ok dd =>
    have hdd : dd = d := by
      have h2 := hTrue
      simp [getRbfSceneSetupsInfo, hL, hb, Bind.bind, Except.bind] at h2
      exact h2
    subst hdd
    have hnodup := getSceneSetupNodes_nodup s L hL
    obtain ⟨hc, hm⟩ := buildSetupsDict_mem s L _ dd n v hnodup hn hv hb
    refine ⟨?_, hm, ?_⟩
    · rw [hc]
      simp [dictCount]
    · have h3 := hFalse
      simp only [getRbfSceneSetupsInfo, hL, hb, Bind.bind, Except.bind,
                 Bool.false_eq_true, if_false] at h3
      unfold dictPop at h3
      by_cases hany : (dd.any fun e => decide (e.1 = AttrValue.str "empty")) = true
      · rw [if_pos hany] at h3
        injection h3 with h4
        rw [← h4]
        intro hcontra
        rcases List.mem_map.1 hcontra with ⟨e, hef, hfst⟩
        have h5 := (List.mem_filter.1 hef).2
        simp [hfst] at h5
      · rw [if_neg hany] at h3
        simp at h3

/-- Scene used to witness C10: one supported node with a setup name. -/
def sceneC10 : Scene :=
  ⟨[⟨"wdA", "weightDriver", none, [⟨"rbf_setup_name", AttrValue.str "faceSetup", true⟩]⟩]⟩

/-- Witness for C10 at a concrete scene, all hypotheses evaluated. -/
theorem rbf_C10_witness :
    dictCount [(AttrValue.str "empty", ([] : List String)),
               (AttrValue.str "faceSetup", ["wdA"])] "wdA" = 1 ∧
    "wdA" ∈ dictEntry [(AttrValue.str "empty", ([] : List String)),
               (AttrValue.str "faceSetup", ["wdA"])]
        (if AttrValue.str "faceSetup" = AttrValue.str "" then AttrValue.str "empty"
         else AttrValue.str "faceSetup") ∧
    AttrValue.str "empty" ∉ ([(AttrValue.str "faceSetup", ["wdA"])].map Prod.fst) :=
  rbf_C10_partition sceneC10 ["wdA"]
    [(AttrValue.str "empty", ([] : List String)), (AttrValue.str "faceSetup", ["wdA"])]
    [(AttrValue.str "faceSetup", ["wdA"])] "wdA" (AttrValue.str "faceSetup")
    (by decide) (by decide) (by decide) (by decide) (by decide)
